import Mathlib

/-!
# Verification of the teacher-performance-dashboard aggregation and caching service

Shallow embedding of the ASP.NET Web API backend of the repository
(`api/Controllers/AuthController.cs` with its `DashboardController`,
`TestsController.cs`, `SchoolsController.cs`, `Services/DataService.cs`,
`Models/Dashboard.cs`) into Lean 4.

Modelling conventions:
* C# `double` arithmetic is modelled over `ℚ`.  All score inputs are C# `int`s,
  so the exact arithmetic mean is a rational; `Math.Round(x, 1)` (whose .NET
  default midpoint mode is `MidpointRounding.ToEven`, i.e. banker's rounding)
  is modelled as exact scaling by 10, integer rounding half-to-even, and
  division by 10.  Every concrete value used in counterexamples and witnesses
  below is exactly representable as a binary double, and its scaling by 10 is
  exact, so the midpoint behaviour exhibited is the behaviour of the real code.
* `IMemoryCache` with `SetAbsoluteExpiration` is modelled as an association
  list from string keys to (value, expiresAt) entries; an entry is live
  exactly while `now < expiresAt` (MemoryCache treats `expiresAt ≤ now` as
  expired).  Time is a `Nat` counted in minutes, matching the
  `TimeSpan.FromMinutes` TTLs of the source.
* Thrown exceptions / HTTP error results are modelled with `Except`: an
  action returns either an `ApiError` (the 400/401/500 responses the
  controllers produce) or its payload.  A controller action additionally
  returns the updated cache and a `Bool` recording whether the data service
  (Repository) was invoked during the call.
* `await Task.Delay(...)` calls are pure delays with no observable effect and
  are not modelled.
-/

namespace TeacherDashboard

/-! ## Data model (api/Models/Dashboard.cs, field names as in the C# source) -/

structure Student where
  Id : String
  FirstName : String
  LastName : String
  StudentId : String
  Grade : String
deriving DecidableEq

structure StudentScore where
  StudentId : String
  TestId : String
  Score : Int
  Percentile : Int
  TestDate : String
deriving DecidableEq

structure School where
  Id : String
  Name : String
  District : String
deriving DecidableEq

structure Test where
  Id : String
  Name : String
  Subject : String
  MaxScore : Int
deriving DecidableEq

structure AggregateScore where
  TestId : String
  SchoolYear : String
  ClassAverage : ℚ
  SchoolAverage : ℚ
  DistrictAverage : ℚ
  TotalStudents : Nat
deriving DecidableEq

structure HistoricalPerformance where
  Year : String
  Subject : String
  ClassAverage : ℚ
  SchoolAverage : ℚ
  DistrictAverage : ℚ
deriving DecidableEq

structure DashboardData where
  Students : List Student
  Scores : List StudentScore
  AggregateScores : AggregateScore
  HistoricalPerformance : List HistoricalPerformance
deriving DecidableEq

/-- The `User` model consumed by `AuthController.Login` (fields as used there:
`Id`, `Username`, `PasswordHash`, `Name`, `Email`, `Role`). -/
structure User where
  Id : String
  Username : String
  PasswordHash : String
  Name : String
  Email : String
  Role : String
deriving DecidableEq

structure UserDto where
  Id : String
  Username : String
  Name : String
  Email : String
  Role : String
deriving DecidableEq

structure LoginRequest where
  Username : String
  Password : String
deriving DecidableEq

/-- `LoginResponse` with the token kept abstract as the string produced by
`ITokenService.GenerateToken`. -/
structure LoginResponse where
  User : UserDto
  Token : String
deriving DecidableEq

/-! ## Errors: the HTTP error responses the controllers produce -/

/-- Deserialization failure inside `DataService.ReadJsonFileAsync`
(`JsonSerializer.Deserialize` throwing on malformed content). -/
inductive DataError where
  | deserializeError
deriving DecidableEq

/-- The error responses returned by the controllers: `BadRequest` (400),
`Unauthorized` (401), and the catch-all `StatusCode(500, ...)`. -/
inductive ApiError where
  | badRequest (message : String)
  | unauthorized (message : String)
  | serverError (message : String)
deriving DecidableEq

/-! ## Score Repository (Services/DataService.cs) -/

/-- The state of one backing JSON file as seen by `ReadJsonFileAsync`:
the file may be absent, its content may fail to deserialize (throwing),
deserialize to `null`, or deserialize to a list of records. -/
inductive FileContent (α : Type) where
  | missing
  | malformed
  | nullJson
  | ok (records : List α)

/-- Embedding of `DataService.ReadJsonFileAsync<T>`:
if the file does not exist it returns `new List<T>()`;
if `JsonSerializer.Deserialize` throws, the exception propagates;
a `null` deserialization result falls back to `new List<T>()` via `??`. -/
def readJsonFile {α : Type} (f : FileContent α) : Except DataError (List α) :=
  match f with
  | .missing => .ok []
  | .malformed => .error .deserializeError
  | .nullJson => .ok []
  | .ok records => .ok records

/-- The backing data directory: one `FileContent` per JSON file the
`DataService` reads. -/
structure DataFiles where
  usersFile : FileContent User
  schoolsFile : FileContent School
  testsFile : FileContent Test
  studentsFile : FileContent Student
  scoresFile : FileContent StudentScore
  historicalFile : FileContent HistoricalPerformance

def getUsersAsync (d : DataFiles) : Except DataError (List User) :=
  readJsonFile d.usersFile

def getSchoolsAsync (d : DataFiles) : Except DataError (List School) :=
  readJsonFile d.schoolsFile

def getTestsAsync (d : DataFiles) : Except DataError (List Test) :=
  readJsonFile d.testsFile

def getStudentsAsync (d : DataFiles) : Except DataError (List Student) :=
  readJsonFile d.studentsFile

def getScoresAsync (d : DataFiles) : Except DataError (List StudentScore) :=
  readJsonFile d.scoresFile

def getHistoricalPerformanceAsync (d : DataFiles) :
    Except DataError (List HistoricalPerformance) :=
  readJsonFile d.historicalFile

/-! ## Rounding: `Math.Round(x, 1)` and the spec's round-half-away-from-zero -/

/-- Floor of a rational as an integer. -/
def ratFloor (q : ℚ) : ℤ :=
  ⌊q⌋

/-- Round to the nearest integer, midpoints to the even neighbour: the
midpoint mode of .NET `Math.Round` when no `MidpointRounding` is passed
(banker's rounding), which is what `Math.Round(classAverage, 1)` uses. -/
def roundHalfToEven (q : ℚ) : ℤ :=
  let f := ratFloor q
  let r := q - (f : ℚ)
  if r < 1 / 2 then f
  else if 1 / 2 < r then f + 1
  else if f % 2 = 0 then f else f + 1

/-- Round to the nearest integer, midpoints away from zero: the rounding the
specification prescribes for the one-decimal class average. -/
def roundHalfAwayFromZero (q : ℚ) : ℤ :=
  if 0 ≤ q then ratFloor (q + 1 / 2)
  else -ratFloor (-q + 1 / 2)

/-- `Math.Round(q, 1)` with the .NET default midpoint mode (to even). -/
def mathRound1 (q : ℚ) : ℚ :=
  (roundHalfToEven (q * 10) : ℚ) / 10

/-- One-decimal rounding with midpoints away from zero, as the spec words it. -/
def specRound1 (q : ℚ) : ℚ :=
  (roundHalfAwayFromZero (q * 10) : ℚ) / 10

/-- `Enumerable.Average` over the projected scores: exact sum divided by
count (the inputs are C# ints, so the exact mean is rational). -/
def listAverage (l : List ℤ) : ℚ :=
  (l.sum : ℚ) / (l.length : ℚ)

/-! ## Cache Layer (IMemoryCache with SetAbsoluteExpiration) -/

structure CacheEntry (α : Type) where
  value : α
  expiresAt : Nat
deriving DecidableEq

/-- The memory cache: newest binding for a key shadows older ones. -/
abbrev Cache (α : Type) := List (String × CacheEntry α)

/-- `_cache.TryGetValue(key, out value)`: the stored entry is returned only
while `now < expiresAt`; at or after `expiresAt` the entry is expired and the
lookup is a miss (MemoryCache checks `absoluteExpiration ≤ utcNow`). -/
def Cache.tryGet {α : Type} (c : Cache α) (now : Nat) (key : String) :
    Option α :=
  match c.find? (fun p => p.1 == key) with
  | some p => if now < p.2.expiresAt then some p.2.value else none
  | none => none

/-- `_cache.Set(key, value, options)` with `SetAbsoluteExpiration(ttl)`
taken at time `now`: stores the value with `expiresAt = now + ttl`. -/
def Cache.store {α : Type} (c : Cache α) (key : String) (v : α)
    (expiresAt : Nat) : Cache α :=
  (key, ⟨v, expiresAt⟩) :: c

/-- Dashboard results are cached for `TimeSpan.FromMinutes(10)`. -/
def dashboardTtl : Nat := 10

/-- Schools and tests collections are cached for `TimeSpan.FromMinutes(30)`. -/
def referenceTtl : Nat := 30

/-! ## Dashboard Query Service (DashboardController.GetDashboardData) -/

/-- `$"dashboard_{schoolId}_{schoolYear}_{testId}"`. -/
def dashboardCacheKey (schoolId schoolYear testId : String) : String :=
  "dashboard_" ++ schoolId ++ "_" ++ schoolYear ++ "_" ++ testId

/-- The cache-miss body of `GetDashboardData`: filter the scores to the
requested test, aggregate, and assemble the `DashboardData` payload.
`classAverage = testScores.Any() ? testScores.Average(s => s.Score) : 0`,
`ClassAverage = Math.Round(classAverage, 1)`; `SchoolAverage = 81.5` and
`DistrictAverage = 79.3` are hardcoded; `TotalStudents = students.Count`. -/
def computeDashboardData (students : List Student)
    (scores : List StudentScore)
    (historicalPerformance : List HistoricalPerformance)
    (schoolYear testId : String) : DashboardData :=
  let testScores := scores.filter (fun s => s.TestId == testId)
  let classAverage : ℚ :=
    if testScores.isEmpty then 0
    else listAverage (testScores.map (fun s => s.Score))
  { Students := students
    Scores := testScores
    AggregateScores :=
      { TestId := testId
        SchoolYear := schoolYear
        ClassAverage := mathRound1 classAverage
        SchoolAverage := (81.5 : ℚ)
        DistrictAverage := (79.3 : ℚ)
        TotalStudents := students.length }
    HistoricalPerformance := historicalPerformance }

/-- Embedding of `DashboardController.GetDashboardData`.
Returns the HTTP payload, the cache after the call, and whether the data
service (Repository) was invoked.  The guard
`string.IsNullOrEmpty(schoolId) || ... || string.IsNullOrEmpty(testId)` is
`schoolId = "" ∨ schoolYear = "" ∨ testId = ""` (bound query strings are
non-null here; absence binds the empty string).  Any exception thrown by the
data service reads is caught and turned into the 500 response, leaving the
cache unchanged. -/
def getDashboardData (d : DataFiles) (cache : Cache DashboardData)
    (now : Nat) (schoolId schoolYear testId : String) :
    Except ApiError (DashboardData × Cache DashboardData × Bool) :=
  if schoolId = "" ∨ schoolYear = "" ∨ testId = "" then
    .error (.badRequest ("schoolId, schoolYear, and testId are required"))
  else
    let cacheKey := dashboardCacheKey schoolId schoolYear testId
    match Cache.tryGet cache now cacheKey with
    | some data => .ok (data, cache, false)
    | none =>
      match getStudentsAsync d, getScoresAsync d,
          getHistoricalPerformanceAsync d with
      | .ok students, .ok scores, .ok historicalPerformance =>
        let data := computeDashboardData students scores
          historicalPerformance schoolYear testId
        .ok (data, Cache.store cache cacheKey data (now + dashboardTtl), true)
      | _, _, _ =>
        .error (.serverError
          ("An error occurred while retrieving dashboard data"))

/-! ## TestsController.GetTests and SchoolsController.GetSchools -/

/-- Embedding of `TestsController.GetTests`: cache key `"tests"`,
30-minute absolute expiration. -/
def getTests (d : DataFiles) (cache : Cache (List Test)) (now : Nat) :
    Except ApiError (List Test × Cache (List Test) × Bool) :=
  match Cache.tryGet cache now ("tests") with
  | some tests => .ok (tests, cache, false)
  | none =>
    match getTestsAsync d with
    | .ok tests =>
      .ok (tests, Cache.store cache ("tests") tests (now + referenceTtl), true)
    | .error _ =>
      .error (.serverError ("An error occurred while retrieving tests"))

/-- Embedding of `SchoolsController.GetSchools`: cache key `"schools"`,
30-minute absolute expiration. -/
def getSchools (d : DataFiles) (cache : Cache (List School)) (now : Nat) :
    Except ApiError (List School × Cache (List School) × Bool) :=
  match Cache.tryGet cache now ("schools") with
  | some schools => .ok (schools, cache, false)
  | none =>
    match getSchoolsAsync d with
    | .ok schools =>
      .ok (schools, Cache.store cache ("schools") schools (now + referenceTtl),
        true)
    | .error _ =>
      .error (.serverError ("An error occurred while retrieving schools"))

/-! ## Auth Gate -/

/-- Embedding of `AuthController.Login`.  The token generator stands for
`ITokenService.GenerateToken(user.Id, user.Username, user.Role)`, whose
implementation is outside the embedded core; the controller passes exactly
those three arguments.  `users.FirstOrDefault(u => u.Username ==
request.Username && u.PasswordHash == request.Password)` is the first match
of the predicate; a `null` result yields `Unauthorized(new { message =
"Invalid credentials" })`, and any exception from the user read yields the
500 response. -/
def login (d : DataFiles) (tokenGen : String → String → String → String)
    (request : LoginRequest) : Except ApiError LoginResponse :=
  match getUsersAsync d with
  | .error _ => .error (.serverError ("An error occurred during login"))
  | .ok users =>
    match users.find? (fun u =>
        u.Username == request.Username && u.PasswordHash == request.Password)
      with
    | none => .error (.unauthorized ("Invalid credentials"))
    | some user =>
      .ok { User := { Id := user.Id, Username := user.Username,
                      Name := user.Name, Email := user.Email,
                      Role := user.Role }
            Token := tokenGen user.Id user.Username user.Role }

/-- Modelled from the spec: the JWT bearer middleware that enforces
`[Authorize]` is ASP.NET framework code, not in the repository; `Program.cs`
only configures it (`ValidateIssuerSigningKey`, `ValidateLifetime`,
`IssuerSigningKey` built from the server-held secret).  The spec's
`AccessToken` is `(subjectId, role, issuedAt, expiresAt, signature)`. -/
structure AccessToken where
  subjectId : String
  role : String
  issuedAt : Nat
  expiresAt : Nat
  signature : Nat
deriving DecidableEq

/-- A deterministic code of a string, used to build the abstract signature. -/
def strCode (s : String) : Nat :=
  s.data.foldl (fun a c => a * 257 + c.toNat) 7

/-- Modelled from the spec: an abstract deterministic HMAC-style signature of
the token payload under the server-held secret (the concrete HS256 signing
lives in the framework and `TokenService.cs`, which is not in src). -/
def signPayload (secret : Nat) (subjectId role : String)
    (issuedAt expiresAt : Nat) : Nat :=
  ((strCode subjectId * 1000003 + strCode role) * 1000003 + issuedAt)
      * 1000003 + expiresAt + secret

/-- Modelled from the spec: token validation per the configured
`TokenValidationParameters` — the signature must validate against the
server-held secret (`ValidateIssuerSigningKey`) and the token must be
unexpired (`ValidateLifetime`); both checks must pass. -/
def validateToken (secret now : Nat) (t : AccessToken) : Bool :=
  (t.signature == signPayload secret t.subjectId t.role t.issuedAt t.expiresAt)
    && decide (now < t.expiresAt)

/-- Outcome of a request to a protected route: either rejected at the gate
with 401, or handled by the controller action. -/
inductive GateResult (α : Type) where
  | unauthenticated
  | handled (response : α)
deriving DecidableEq

/-- Modelled from the spec: the `[Authorize]` gate in front of
`DashboardController`, `TestsController` and `SchoolsController` — the inner
controller action runs only after the bearer token validates (fail-closed);
a missing or invalid token yields 401 without invoking the action. -/
def handleProtected {α : Type} (secret now : Nat) (auth : Option AccessToken)
    (action : Unit → α) : GateResult α :=
  match auth with
  | none => .unauthenticated
  | some t =>
    if validateToken secret now t then .handled (action ())
    else .unauthenticated

/-- Modelled from the spec: `TokenService.GenerateToken` is not in src; the
spec says login "issues a signed token with fixed expiry (e.g., 60
minutes)". -/
def generateToken (secret now : Nat) (subjectId role : String) : AccessToken :=
  { subjectId := subjectId
    role := role
    issuedAt := now
    expiresAt := now + 60
    signature := signPayload secret subjectId role now (now + 60) }

/-! ## Concrete fixtures used by witnesses and counterexamples -/

def sampleStudents : List Student :=
  [{ Id := "st1", FirstName := "Ada", LastName := "Byron",
     StudentId := "S-001", Grade := "5" },
   { Id := "st2", FirstName := "Alan", LastName := "Turing",
     StudentId := "S-002", Grade := "5" }]

/-- The spec's worked example: scores 80 and 90 on test "2", 50 on test "1". -/
def sampleScores : List StudentScore :=
  [{ StudentId := "st1", TestId := "2", Score := 80, Percentile := 70,
     TestDate := "2025-01-15" },
   { StudentId := "st2", TestId := "2", Score := 90, Percentile := 85,
     TestDate := "2025-01-15" },
   { StudentId := "st1", TestId := "1", Score := 50, Percentile := 30,
     TestDate := "2025-02-15" }]

def sampleUsers : List User :=
  [{ Id := "u1", Username := "teacher1", PasswordHash := "password123",
     Name := "Sarah Johnson", Email := "t1@school.edu", Role := "teacher" }]

def sampleTests : List Test :=
  [{ Id := "2", Name := "Interim ELA", Subject := "ELA", MaxScore := 100 }]

def sampleSchools : List School :=
  [{ Id := "SCH1", Name := "Lincoln Elementary", District := "District 1" }]

def sampleFiles : DataFiles :=
  { usersFile := .ok sampleUsers
    schoolsFile := .ok sampleSchools
    testsFile := .ok sampleTests
    studentsFile := .ok sampleStudents
    scoresFile := .ok sampleScores
    historicalFile := .ok [] }

/-- A backing directory where every JSON file is absent. -/
def missingFiles : DataFiles :=
  { usersFile := .missing
    schoolsFile := .missing
    testsFile := .missing
    studentsFile := .missing
    scoresFile := .missing
    historicalFile := .missing }

/-- Scores whose mean on test "2" is 329/4 = 82.25, a one-decimal midpoint:
82.25 and 822.5 are exactly representable doubles, so real `Math.Round`
behaviour on this input is the modelled one. -/
def midpointScores : List StudentScore :=
  [{ StudentId := "st1", TestId := "2", Score := 82, Percentile := 60,
     TestDate := "2025-01-15" },
   { StudentId := "st2", TestId := "2", Score := 82, Percentile := 60,
     TestDate := "2025-01-15" },
   { StudentId := "st3", TestId := "2", Score := 82, Percentile := 60,
     TestDate := "2025-01-15" },
   { StudentId := "st4", TestId := "2", Score := 83, Percentile := 62,
     TestDate := "2025-01-15" }]

def midpointFiles : DataFiles :=
  { usersFile := .ok []
    schoolsFile := .ok []
    testsFile := .ok []
    studentsFile := .ok sampleStudents
    scoresFile := .ok midpointScores
    historicalFile := .ok [] }

/-! ## Helper lemmas on the cache and the dashboard action -/

theorem Cache.tryGet_store {α : Type} (c : Cache α) (key : String) (v : α)
    (e now : Nat) :
    Cache.tryGet (Cache.store c key v e) now key =
      if now < e then some v else none := by
  simp [Cache.tryGet, Cache.store, List.find?]

theorem getDashboardData_hit (d : DataFiles) (cache : Cache DashboardData)
    (now : Nat) (sid sy tid : String) (data : DashboardData)
    (hsid : sid ≠ "") (hsy : sy ≠ "") (htid : tid ≠ "")
    (hhit : Cache.tryGet cache now (dashboardCacheKey sid sy tid) = some data) :
    getDashboardData d cache now sid sy tid = .ok (data, cache, false) := by
  simp [getDashboardData, hsid, hsy, htid, hhit]

theorem getDashboardData_miss (d : DataFiles) (cache : Cache DashboardData)
    (now : Nat) (sid sy tid : String) (students : List Student)
    (scores : List StudentScore) (hist : List HistoricalPerformance)
    (hsid : sid ≠ "") (hsy : sy ≠ "") (htid : tid ≠ "")
    (hmiss : Cache.tryGet cache now (dashboardCacheKey sid sy tid) = none)
    (hst : getStudentsAsync d = .ok students)
    (hsc : getScoresAsync d = .ok scores)
    (hh : getHistoricalPerformanceAsync d = .ok hist) :
    getDashboardData d cache now sid sy tid =
      .ok (computeDashboardData students scores hist sy tid,
        Cache.store cache (dashboardCacheKey sid sy tid)
          (computeDashboardData students scores hist sy tid)
          (now + dashboardTtl), true) := by
  simp [getDashboardData, hsid, hsy, htid, hmiss, hst, hsc, hh]

theorem mathRound1_zero : mathRound1 0 = 0 := by
  have hf : ratFloor ((0 : ℚ) * 10) = 0 := by
    rw [ratFloor]
    exact Int.floor_eq_iff.mpr (by norm_num)
  unfold mathRound1 roundHalfToEven
  rw [hf]
  norm_num

/-! ## C1 -/

/-- C1: for every score list and queried testId with no matching scores, the
aggregation performed by `getDashboardData` produces a class average of 0 and
the call succeeds (the embedding is a total function, so no exception is
raised, and over `ℚ` no NaN can arise; the source guards the division with
`testScores.Any()`). -/
theorem dashboard_no_matching_scores_average_zero
    (d : DataFiles) (cache : Cache DashboardData) (now : Nat)
    (sid sy tid : String) (students : List Student)
    (scores : List StudentScore) (hist : List HistoricalPerformance)
    (hsid : sid ≠ "") (hsy : sy ≠ "") (htid : tid ≠ "")
    (hmiss : Cache.tryGet cache now (dashboardCacheKey sid sy tid) = none)
    (hst : getStudentsAsync d = .ok students)
    (hsc : getScoresAsync d = .ok scores)
    (hh : getHistoricalPerformanceAsync d = .ok hist)
    (hempty : scores.filter (fun s => s.TestId == tid) = []) :
    getDashboardData d cache now sid sy tid =
      .ok (computeDashboardData students scores hist sy tid,
        Cache.store cache (dashboardCacheKey sid sy tid)
          (computeDashboardData students scores hist sy tid)
          (now + dashboardTtl), true) ∧
    (computeDashboardData students scores hist sy tid).AggregateScores.ClassAverage
      = 0 := by
  refine ⟨getDashboardData_miss d cache now sid sy tid students scores hist
    hsid hsy htid hmiss hst hsc hh, ?_⟩
  simp [computeDashboardData, hempty, mathRound1_zero]

/-- C1 witness: the sample score set has no scores for test "T9". -/
theorem dashboard_no_matching_scores_average_zero_witness :
    (computeDashboardData sampleStudents sampleScores [] ("2025-2026")
      ("T9")).AggregateScores.ClassAverage = 0 :=
  (dashboard_no_matching_scores_average_zero sampleFiles [] 0 ("SCH1")
    ("2025-2026") ("T9") sampleStudents sampleScores []
    (by decide) (by decide) (by decide) rfl rfl rfl rfl (by decide)).2

/-! ## C2 -/

/-- C2 counterexample: four scores on test "2" with mean 82.25 (82.25 and
822.5 are exactly representable doubles, so the modelled behaviour is the
real `Math.Round` behaviour on this input).  `Math.Round(82.25, 1)` uses the
.NET default banker's rounding and yields 82.2, while the claimed
round-half-away-from-zero yields 82.3. -/
theorem dashboard_round_half_away_counterexample :
    (computeDashboardData sampleStudents midpointScores [] ("2025-2026")
        ("2")).AggregateScores.ClassAverage ≠
      specRound1 (listAverage ((midpointScores.filter
        (fun s => s.TestId == "2")).map (fun s => s.Score))) := by
  have hfilter : midpointScores.filter (fun s => s.TestId == "2")
      = midpointScores := by decide
  have havg : listAverage (midpointScores.map (fun s => s.Score))
      = (329 : ℚ) / 4 := by
    have h1 : ((midpointScores.map (fun s => s.Score)).sum : ℤ) = 329 := by
      decide
    have h2 : (midpointScores.map (fun s => s.Score)).length = 4 := by decide
    rw [listAverage, h1, h2]
    norm_num
  have hmath : mathRound1 ((329 : ℚ) / 4) = (82.2 : ℚ) := by
    have hf : ratFloor ((329 : ℚ) / 4 * 10) = 822 := by
      rw [ratFloor]
      exact Int.floor_eq_iff.mpr (by norm_num)
    unfold mathRound1 roundHalfToEven
    rw [hf]
    norm_num
  have hspec : specRound1 ((329 : ℚ) / 4) = (82.3 : ℚ) := by
    have hf : ratFloor ((329 : ℚ) / 4 * 10 + 1 / 2) = 823 := by
      rw [ratFloor]
      exact Int.floor_eq_iff.mpr (by norm_num)
    unfold specRound1 roundHalfAwayFromZero
    rw [if_pos (by norm_num), hf]
    norm_num
  have hisEmpty : midpointScores.isEmpty = false := by decide
  simp only [computeDashboardData, hfilter, hisEmpty, Bool.false_eq_true,
    if_false, havg, hmath, hspec]
  norm_num

/-- C2 (amended): for every non-empty filtered match set, the class average
equals the arithmetic mean of the matching scores rounded to one decimal
place using round-half-to-even (banker's rounding, the .NET `Math.Round`
default) — not round-half-away-from-zero; the two agree except when the mean
scaled by 10 is a midpoint. -/
theorem dashboard_nonempty_average_half_even
    (d : DataFiles) (cache : Cache DashboardData) (now : Nat)
    (sid sy tid : String) (students : List Student)
    (scores : List StudentScore) (hist : List HistoricalPerformance)
    (hsid : sid ≠ "") (hsy : sy ≠ "") (htid : tid ≠ "")
    (hmiss : Cache.tryGet cache now (dashboardCacheKey sid sy tid) = none)
    (hst : getStudentsAsync d = .ok students)
    (hsc : getScoresAsync d = .ok scores)
    (hh : getHistoricalPerformanceAsync d = .ok hist)
    (hne : scores.filter (fun s => s.TestId == tid) ≠ []) :
    getDashboardData d cache now sid sy tid =
      .ok (computeDashboardData students scores hist sy tid,
        Cache.store cache (dashboardCacheKey sid sy tid)
          (computeDashboardData students scores hist sy tid)
          (now + dashboardTtl), true) ∧
    (computeDashboardData students scores hist sy tid).AggregateScores.ClassAverage
      = mathRound1
          (((((scores.filter (fun s => s.TestId == tid)).map
              (fun s => s.Score)).sum : ℤ) : ℚ) /
            (((scores.filter (fun s => s.TestId == tid)).map
              (fun s => s.Score)).length : ℚ)) := by
  refine ⟨getDashboardData_miss d cache now sid sy tid students scores hist
    hsid hsy htid hmiss hst hsc hh, ?_⟩
  have hne' : (scores.filter (fun s => s.TestId == tid)).isEmpty = false := by
    rcases h : scores.filter (fun s => s.TestId == tid) with _ | ⟨a, l⟩
    · exact absurd h hne
    · rw [h]
      rfl
  simp [computeDashboardData, hne', listAverage]

/-- C2 witness: the spec's worked example — scores 80 and 90 on test "2",
50 on test "1"; querying test "2" yields a class average of 85.0. -/
theorem dashboard_nonempty_average_half_even_witness :
    (computeDashboardData sampleStudents sampleScores [] ("2025-2026")
      ("2")).AggregateScores.ClassAverage = (85.0 : ℚ) := by
  have h := (dashboard_nonempty_average_half_even sampleFiles [] 0 ("SCH1")
    ("2025-2026") ("2") sampleStudents sampleScores []
    (by decide) (by decide) (by decide) rfl rfl rfl rfl (by decide)).2
  rw [h]
  have h1 : (((sampleScores.filter (fun s => s.TestId == "2")).map
      (fun s => s.Score)).sum : ℤ) = 170 := by decide
  have h2 : ((sampleScores.filter (fun s => s.TestId == "2")).map
      (fun s => s.Score)).length = 2 := by decide
  rw [h1, h2]
  have harg : (((170 : ℤ) : ℚ) / ((2 : ℕ) : ℚ)) = (85 : ℚ) := by norm_num
  rw [harg]
  have hf : ratFloor ((85 : ℚ) * 10) = 850 := by
    rw [ratFloor]
    exact Int.floor_eq_iff.mpr (by norm_num)
  unfold mathRound1 roundHalfToEven
  rw [hf]
  norm_num

/-! ## C5 -/

/-- C5: the dashboard call returns the 400 BadRequest response exactly when
at least one of schoolId, schoolYear, testId is empty; in that case the guard
returns before the cache lookup, the data service reads and the aggregation
run, so the error return carries no data, no repo invocation and no cache
update. -/
theorem dashboard_badRequest_iff_param_missing
    (d : DataFiles) (cache : Cache DashboardData) (now : Nat)
    (sid sy tid : String) :
    ((∃ m, getDashboardData d cache now sid sy tid = .error (.badRequest m))
      ↔ (sid = "" ∨ sy = "" ∨ tid = "")) ∧
    ((sid = "" ∨ sy = "" ∨ tid = "") →
      getDashboardData d cache now sid sy tid =
        .error (.badRequest
          ("schoolId, schoolYear, and testId are required"))) := by
  constructor
  · constructor
    · rintro ⟨m, hm⟩
      by_cases h : sid = "" ∨ sy = "" ∨ tid = ""
      · exact h
      · exfalso
        push_neg at h
        obtain ⟨h1, h2, h3⟩ := h
        simp only [getDashboardData, h1, h2, h3, false_or, if_false] at hm
        rcases htry : Cache.tryGet cache now (dashboardCacheKey sid sy tid)
          with _ | data
        · rw [htry] at hm
          rcases hS : getStudentsAsync d with e1 | s1 <;>
            rcases hC : getScoresAsync d with e2 | s2 <;>
              rcases hH : getHistoricalPerformanceAsync d with e3 | l3 <;>
                simp [hS, hC, hH] at hm
        · rw [htry] at hm
          simp at hm
    · intro h
      exact ⟨"schoolId, schoolYear, and testId are required", by
        unfold getDashboardData
        rw [if_pos h]⟩
  · intro h
    unfold getDashboardData
    rw [if_pos h]

/-- C5 witness: an empty schoolId is rejected with the 400 message. -/
theorem dashboard_badRequest_iff_param_missing_witness :
    getDashboardData sampleFiles [] 0 ("") ("2025-2026") ("2") =
      .error (.badRequest
        ("schoolId, schoolYear, and testId are required")) :=
  (dashboard_badRequest_iff_param_missing sampleFiles [] 0 ("") ("2025-2026")
    ("2")).2 (Or.inl rfl)

/-! ## C6 -/

/-- C6: the returned `TotalStudents` is the length of the full student
roster fetched from the data service, not the count of the score filter; in
particular with no matching scores the class average is 0 while
`TotalStudents` is still the roster length. -/
theorem dashboard_totalStudents_is_roster_length
    (d : DataFiles) (cache : Cache DashboardData) (now : Nat)
    (sid sy tid : String) (students : List Student)
    (scores : List StudentScore) (hist : List HistoricalPerformance)
    (hsid : sid ≠ "") (hsy : sy ≠ "") (htid : tid ≠ "")
    (hmiss : Cache.tryGet cache now (dashboardCacheKey sid sy tid) = none)
    (hst : getStudentsAsync d = .ok students)
    (hsc : getScoresAsync d = .ok scores)
    (hh : getHistoricalPerformanceAsync d = .ok hist) :
    getDashboardData d cache now sid sy tid =
      .ok (computeDashboardData students scores hist sy tid,
        Cache.store cache (dashboardCacheKey sid sy tid)
          (computeDashboardData students scores hist sy tid)
          (now + dashboardTtl), true) ∧
    (computeDashboardData students scores hist
        sy tid).AggregateScores.TotalStudents = students.length ∧
    (scores.filter (fun s => s.TestId == tid) = [] →
      (computeDashboardData students scores hist
        sy tid).AggregateScores.ClassAverage = 0 ∧
      (computeDashboardData students scores hist
        sy tid).AggregateScores.TotalStudents = students.length) := by
  refine ⟨getDashboardData_miss d cache now sid sy tid students scores hist
    hsid hsy htid hmiss hst hsc hh, by simp [computeDashboardData],
    fun hempty => ⟨?_, by simp [computeDashboardData]⟩⟩
  simp [computeDashboardData, hempty, mathRound1_zero]

/-- C6 witness: querying test "T9" (no matching scores) still reports the
full two-student roster while the class average is 0. -/
theorem dashboard_totalStudents_is_roster_length_witness :
    (computeDashboardData sampleStudents sampleScores [] ("2025-2026")
      ("T9")).AggregateScores.TotalStudents = sampleStudents.length :=
  (dashboard_totalStudents_is_roster_length sampleFiles [] 0 ("SCH1")
    ("2025-2026") ("T9") sampleStudents sampleScores []
    (by decide) (by decide) (by decide) rfl rfl rfl rfl).2.1

/-! ## C10 -/

/-- C10: two valid dashboard queries sharing the testId but differing in
schoolId and/or schoolYear return the same Students, Scores and
HistoricalPerformance lists, the same class average and total, and the
hardcoded school average 81.5 and district average 79.3; schoolId and
schoolYear only enter the cache key and the echoed SchoolYear field (the
computation `computeDashboardData` does not even take schoolId). -/
theorem dashboard_independent_of_school_and_year
    (d : DataFiles) (cache1 cache2 : Cache DashboardData) (now1 now2 : Nat)
    (sid1 sy1 sid2 sy2 tid : String) (students : List Student)
    (scores : List StudentScore) (hist : List HistoricalPerformance)
    (hsid1 : sid1 ≠ "") (hsy1 : sy1 ≠ "") (hsid2 : sid2 ≠ "")
    (hsy2 : sy2 ≠ "") (htid : tid ≠ "")
    (hmiss1 : Cache.tryGet cache1 now1 (dashboardCacheKey sid1 sy1 tid)
      = none)
    (hmiss2 : Cache.tryGet cache2 now2 (dashboardCacheKey sid2 sy2 tid)
      = none)
    (hst : getStudentsAsync d = .ok students)
    (hsc : getScoresAsync d = .ok scores)
    (hh : getHistoricalPerformanceAsync d = .ok hist) :
    getDashboardData d cache1 now1 sid1 sy1 tid =
      .ok (computeDashboardData students scores hist sy1 tid,
        Cache.store cache1 (dashboardCacheKey sid1 sy1 tid)
          (computeDashboardData students scores hist sy1 tid)
          (now1 + dashboardTtl), true) ∧
    getDashboardData d cache2 now2 sid2 sy2 tid =
      .ok (computeDashboardData students scores hist sy2 tid,
        Cache.store cache2 (dashboardCacheKey sid2 sy2 tid)
          (computeDashboardData students scores hist sy2 tid)
          (now2 + dashboardTtl), true) ∧
    (computeDashboardData students scores hist sy1 tid).Students =
      (computeDashboardData students scores hist sy2 tid).Students ∧
    (computeDashboardData students scores hist sy1 tid).Scores =
      (computeDashboardData students scores hist sy2 tid).Scores ∧
    (computeDashboardData students scores hist sy1 tid).HistoricalPerformance
      = (computeDashboardData students scores hist
          sy2 tid).HistoricalPerformance ∧
    (computeDashboardData students scores hist
        sy1 tid).AggregateScores.ClassAverage =
      (computeDashboardData students scores hist
        sy2 tid).AggregateScores.ClassAverage ∧
    (computeDashboardData students scores hist
        sy1 tid).AggregateScores.TotalStudents =
      (computeDashboardData students scores hist
        sy2 tid).AggregateScores.TotalStudents ∧
    (computeDashboardData students scores hist
        sy1 tid).AggregateScores.TestId =
      (computeDashboardData students scores hist
        sy2 tid).AggregateScores.TestId ∧
    (computeDashboardData students scores hist
      sy1 tid).AggregateScores.SchoolAverage = (81.5 : ℚ) ∧
    (computeDashboardData students scores hist
      sy2 tid).AggregateScores.SchoolAverage = (81.5 : ℚ) ∧
    (computeDashboardData students scores hist
      sy1 tid).AggregateScores.DistrictAverage = (79.3 : ℚ) ∧
    (computeDashboardData students scores hist
      sy2 tid).AggregateScores.DistrictAverage = (79.3 : ℚ) ∧
    (computeDashboardData students scores hist
      sy1 tid).AggregateScores.SchoolYear = sy1 ∧
    (computeDashboardData students scores hist
      sy2 tid).AggregateScores.SchoolYear = sy2 := by
  refine ⟨getDashboardData_miss d cache1 now1 sid1 sy1 tid students scores
      hist hsid1 hsy1 htid hmiss1 hst hsc hh,
    getDashboardData_miss d cache2 now2 sid2 sy2 tid students scores hist
      hsid2 hsy2 htid hmiss2 hst hsc hh, ?_⟩
  simp [computeDashboardData]

/-- C10 witness: the same repository contents queried for test "2" under two
different school/year selections produce the same student list. -/
theorem dashboard_independent_of_school_and_year_witness :
    (computeDashboardData sampleStudents sampleScores [] ("2024-2025")
        ("2")).Students =
      (computeDashboardData sampleStudents sampleScores [] ("2025-2026")
        ("2")).Students :=
  (dashboard_independent_of_school_and_year sampleFiles [] [] 0 0 ("SCH1")
    ("2024-2025") ("SCH2") ("2025-2026") ("2") sampleStudents sampleScores []
    (by decide) (by decide) (by decide) (by decide) (by decide)
    rfl rfl rfl rfl rfl).2.2.1

/-! ## C3 -/

/-- C3: a computing dashboard call at time t0 stores its result under the
parameter-derived key; a second call with identical parameters at any time
t1 before the entry's 10-minute expiry returns the identical payload and
cache and does not invoke the data service (the repo flag of the second
call is `false`). -/
theorem dashboard_cache_hit_idempotent
    (d : DataFiles) (cache : Cache DashboardData) (t0 t1 : Nat)
    (sid sy tid : String) (students : List Student)
    (scores : List StudentScore) (hist : List HistoricalPerformance)
    (hsid : sid ≠ "") (hsy : sy ≠ "") (htid : tid ≠ "")
    (hmiss : Cache.tryGet cache t0 (dashboardCacheKey sid sy tid) = none)
    (hst : getStudentsAsync d = .ok students)
    (hsc : getScoresAsync d = .ok scores)
    (hh : getHistoricalPerformanceAsync d = .ok hist)
    (ht : t1 < t0 + dashboardTtl) :
    getDashboardData d cache t0 sid sy tid =
      .ok (computeDashboardData students scores hist sy tid,
        Cache.store cache (dashboardCacheKey sid sy tid)
          (computeDashboardData students scores hist sy tid)
          (t0 + dashboardTtl), true) ∧
    getDashboardData d
        (Cache.store cache (dashboardCacheKey sid sy tid)
          (computeDashboardData students scores hist sy tid)
          (t0 + dashboardTtl)) t1 sid sy tid =
      .ok (computeDashboardData students scores hist sy tid,
        Cache.store cache (dashboardCacheKey sid sy tid)
          (computeDashboardData students scores hist sy tid)
          (t0 + dashboardTtl), false) := by
  refine ⟨getDashboardData_miss d cache t0 sid sy tid students scores hist
    hsid hsy htid hmiss hst hsc hh, ?_⟩
  apply getDashboardData_hit _ _ _ _ _ _ _ hsid hsy htid
  rw [Cache.tryGet_store]
  exact if_pos ht

/-- C3 witness: a second call one minute after the first (TTL 10) hits the
cache and returns the identical result without invoking the data service. -/
theorem dashboard_cache_hit_idempotent_witness :
    getDashboardData sampleFiles
        (Cache.store [] (dashboardCacheKey ("SCH1") ("2025-2026") ("2"))
          (computeDashboardData sampleStudents sampleScores [] ("2025-2026")
            ("2")) (0 + dashboardTtl)) 1 ("SCH1") ("2025-2026") ("2") =
      .ok (computeDashboardData sampleStudents sampleScores [] ("2025-2026")
        ("2"),
        Cache.store [] (dashboardCacheKey ("SCH1") ("2025-2026") ("2"))
          (computeDashboardData sampleStudents sampleScores [] ("2025-2026")
            ("2")) (0 + dashboardTtl), false) :=
  (dashboard_cache_hit_idempotent sampleFiles [] 0 1 ("SCH1") ("2025-2026")
    ("2") sampleStudents sampleScores []
    (by decide) (by decide) (by decide) rfl rfl rfl rfl (by decide)).2

/-! ## C4 -/

/-- C4: a cache read at or after `expiresAt` is a miss — a served value
always comes from an entry with `now < expiresAt`, and a lookup whose entry
has expired returns `none`; after the dashboard entry's TTL has passed, a
call with the same parameters recomputes from the data service (repo flag
`true`) and restores the entry; the dashboard entry is stored with a
10-minute TTL and the tests and schools entries with a 30-minute TTL. -/
theorem cache_expiry_recompute :
    (∀ (α : Type) (c : Cache α) (now : Nat) (key : String) (v : α),
        Cache.tryGet c now key = some v →
        ∃ e, c.find? (fun p => p.1 == key) = some (key, e) ∧
          e.value = v ∧ now < e.expiresAt) ∧
    (∀ (α : Type) (c : Cache α) (now : Nat) (key : String)
        (e : CacheEntry α),
        c.find? (fun p => p.1 == key) = some (key, e) →
        e.expiresAt ≤ now → Cache.tryGet c now key = none) ∧
    (∀ (d : DataFiles) (c : Cache DashboardData) (t0 t1 : Nat)
        (sid sy tid : String) (v : DashboardData) (students : List Student)
        (scores : List StudentScore) (hist : List HistoricalPerformance),
        sid ≠ "" → sy ≠ "" → tid ≠ "" →
        getStudentsAsync d = .ok students →
        getScoresAsync d = .ok scores →
        getHistoricalPerformanceAsync d = .ok hist →
        t0 + dashboardTtl ≤ t1 →
        getDashboardData d
            (Cache.store c (dashboardCacheKey sid sy tid) v
              (t0 + dashboardTtl)) t1 sid sy tid =
          .ok (computeDashboardData students scores hist sy tid,
            Cache.store
              (Cache.store c (dashboardCacheKey sid sy tid) v
                (t0 + dashboardTtl))
              (dashboardCacheKey sid sy tid)
              (computeDashboardData students scores hist sy tid)
              (t1 + dashboardTtl), true)) ∧
    (∀ (d : DataFiles) (c : Cache (List Test)) (now : Nat)
        (tests : List Test),
        Cache.tryGet c now ("tests") = none → getTestsAsync d = .ok tests →
        getTests d c now =
          .ok (tests, Cache.store c ("tests") tests (now + referenceTtl),
            true)) ∧
    (∀ (d : DataFiles) (c : Cache (List School)) (now : Nat)
        (schools : List School),
        Cache.tryGet c now ("schools") = none →
        getSchoolsAsync d = .ok schools →
        getSchools d c now =
          .ok (schools,
            Cache.store c ("schools") schools (now + referenceTtl), true)) ∧
    dashboardTtl = 10 ∧ referenceTtl = 30 := by
  refine ⟨?_, ?_, ?_, ?_, ?_, rfl, rfl⟩
  · intro α c now key v hm
    unfold Cache.tryGet at hm
    rcases hf : c.find? (fun p => p.1 == key) with _ | ⟨k, e⟩
    · rw [hf] at hm
      cases hm
    · rw [hf] at hm
      have hkey : k = key := by
        have h := List.find?_some hf
        simpa using h
      by_cases hlt : now < e.expiresAt
      · simp [hlt] at hm
        subst hkey
        exact ⟨e, hf, hm, hlt⟩
      · simp [hlt] at hm
  · intro α c now key e hf hle
    simp [Cache.tryGet, hf, Nat.not_lt.mpr hle]
  · intro d c t0 t1 sid sy tid v students scores hist h1 h2 h3 hst hsc hh ht
    have hmiss : Cache.tryGet
        (Cache.store c (dashboardCacheKey sid sy tid) v (t0 + dashboardTtl))
        t1 (dashboardCacheKey sid sy tid) = none := by
      rw [Cache.tryGet_store]
      exact if_neg (Nat.not_lt.mpr ht)
    exact getDashboardData_miss d _ t1 sid sy tid students scores hist
      h1 h2 h3 hmiss hst hsc hh
  · intro d c now tests hm htests
    simp [getTests, hm, htests]
  · intro d c now schools hm hschools
    simp [getSchools, hm, hschools]

/-- C4 witness: with an empty cache at time 0, fetching the tests list
stores it with the 30-minute TTL and reports a data-service invocation. -/
theorem cache_expiry_recompute_witness :
    getTests sampleFiles [] 0 =
      .ok (sampleTests,
        Cache.store [] ("tests") sampleTests (0 + referenceTtl), true) :=
  cache_expiry_recompute.2.2.2.1 sampleFiles [] 0 sampleTests rfl rfl

/-! ## C7 -/

/-- C7 counterexample: with the students JSON file absent (the backing
source unreadable), the Repository read succeeds with an empty list — it
does not fail with a data error as the claim requires. -/
theorem repository_missing_file_reads_empty :
    getStudentsAsync missingFiles = .ok [] ∧
    getStudentsAsync missingFiles ≠ .error .deserializeError :=
  ⟨rfl, by simp [getStudentsAsync, missingFiles, readJsonFile]⟩

/-- C7 (amended): a missing backing file (and a `null` deserialization
result) makes the Repository read return an empty collection, succeeding;
only malformed content makes the read fail, and such a failure is fatal for
the dashboard request — the whole call returns the 500 error and no partial
`DashboardData` is produced. -/
theorem repository_read_failure_fatal :
    (∀ (α : Type), readJsonFile (FileContent.missing : FileContent α)
      = .ok [] ∧
      readJsonFile (FileContent.nullJson : FileContent α) = .ok []) ∧
    (∀ (α : Type), readJsonFile (FileContent.malformed : FileContent α)
      = .error .deserializeError) ∧
    (∀ (d : DataFiles) (cache : Cache DashboardData) (now : Nat)
        (sid sy tid : String),
        sid ≠ "" → sy ≠ "" → tid ≠ "" →
        Cache.tryGet cache now (dashboardCacheKey sid sy tid) = none →
        (getStudentsAsync d = .error .deserializeError ∨
          getScoresAsync d = .error .deserializeError ∨
          getHistoricalPerformanceAsync d = .error .deserializeError) →
        getDashboardData d cache now sid sy tid =
          .error (.serverError
            ("An error occurred while retrieving dashboard data"))) := by
  refine ⟨fun α => ⟨rfl, rfl⟩, fun α => rfl, ?_⟩
  intro d cache now sid sy tid h1 h2 h3 hmiss herr
  rcases herr with h | h | h <;>
    rcases hS : getStudentsAsync d with e1 | s1 <;>
      rcases hC : getScoresAsync d with e2 | s2 <;>
        rcases hH : getHistoricalPerformanceAsync d with e3 | l3 <;>
          simp_all [getDashboardData, hmiss]

/-- C7 witness: a malformed scores file makes the dashboard call fail
outright with the 500 response. -/
theorem repository_read_failure_fatal_witness :
    getDashboardData
        { usersFile := .ok [], schoolsFile := .ok [], testsFile := .ok [],
          studentsFile := .ok sampleStudents, scoresFile := .malformed,
          historicalFile := .ok [] } [] 0 ("SCH1") ("2025-2026") ("2") =
      .error (.serverError
        ("An error occurred while retrieving dashboard data")) :=
  repository_read_failure_fatal.2.2
    { usersFile := .ok [], schoolsFile := .ok [], testsFile := .ok [],
      studentsFile := .ok sampleStudents, scoresFile := .malformed,
      historicalFile := .ok [] } [] 0 ("SCH1") ("2025-2026") ("2")
    (by decide) (by decide) (by decide) rfl (Or.inr (Or.inl rfl))

/-! ## C8 -/

/-- C8: login succeeds iff some stored credential record matches both the
submitted username and password (the controller compares `PasswordHash`
against the submitted password); on success the response carries the
matched user's DTO and the token produced by the token service for exactly
that user; on any mismatch it returns the 401 Unauthorized response with
the "Invalid credentials" message body and carries no token. -/
theorem login_success_iff_credentials_match
    (d : DataFiles) (users : List User)
    (tokenGen : String → String → String → String) (request : LoginRequest)
    (hu : getUsersAsync d = .ok users) :
    ((∃ resp, login d tokenGen request = .ok resp) ↔
      ∃ u ∈ users, u.Username = request.Username ∧
        u.PasswordHash = request.Password) ∧
    (∀ resp, login d tokenGen request = .ok resp →
      ∃ u, users.find? (fun u => u.Username == request.Username &&
          u.PasswordHash == request.Password) = some u ∧
        u.Username = request.Username ∧ u.PasswordHash = request.Password ∧
        resp.Token = tokenGen u.Id u.Username u.Role ∧
        resp.User = { Id := u.Id, Username := u.Username, Name := u.Name,
                      Email := u.Email, Role := u.Role }) ∧
    ((¬ ∃ u ∈ users, u.Username = request.Username ∧
        u.PasswordHash = request.Password) →
      login d tokenGen request =
        .error (.unauthorized ("Invalid credentials"))) := by
  have hpred : ∀ u : User,
      ((u.Username == request.Username &&
        u.PasswordHash == request.Password) = true) ↔
      (u.Username = request.Username ∧ u.PasswordHash = request.Password) :=
    by intro u; simp
  have hlogin : login d tokenGen request =
      match users.find? (fun u => u.Username == request.Username &&
          u.PasswordHash == request.Password) with
      | none => .error (.unauthorized ("Invalid credentials"))
      | some user =>
        .ok { User := { Id := user.Id, Username := user.Username,
                        Name := user.Name, Email := user.Email,
                        Role := user.Role }
              Token := tokenGen user.Id user.Username user.Role } := by
    unfold login
    rw [hu]
  refine ⟨⟨?_, ?_⟩, ?_, ?_⟩
  · rintro ⟨resp, hresp⟩
    rw [hlogin] at hresp
    rcases hf : users.find? (fun u => u.Username == request.Username &&
        u.PasswordHash == request.Password) with _ | u
    · rw [hf] at hresp
      simp at hresp
    · have hp := List.find?_some hf
      exact ⟨u, List.mem_of_find?_eq_some hf, (hpred u).mp hp⟩
  · rintro ⟨u, hmem, hun, hpw⟩
    rw [hlogin]
    rcases hf : users.find? (fun u => u.Username == request.Username &&
        u.PasswordHash == request.Password) with _ | u'
    · exact absurd ((hpred u).mpr ⟨hun, hpw⟩)
        (List.find?_eq_none.mp hf u hmem)
    · rw [hf]
      exact ⟨_, rfl⟩
  · intro resp hresp
    rw [hlogin] at hresp
    rcases hf : users.find? (fun u => u.Username == request.Username &&
        u.PasswordHash == request.Password) with _ | u
    · rw [hf] at hresp
      simp at hresp
    · rw [hf] at hresp
      have hp' := List.find?_some hf
      have hp := (hpred u).mp hp'
      simp at hresp
      exact ⟨u, hf, hp.1, hp.2, by rw [← hresp], by rw [← hresp]⟩
  · intro hno
    rw [hlogin]
    rcases hf : users.find? (fun u => u.Username == request.Username &&
        u.PasswordHash == request.Password) with _ | u
    · rw [hf]
    · have hp := List.find?_some hf
      exact absurd ⟨u, List.mem_of_find?_eq_some hf, (hpred u).mp hp⟩ hno

/-- C8 witness: the stored sample credentials reject a wrong password with
the 401 "Invalid credentials" response. -/
theorem login_success_iff_credentials_match_witness :
    login sampleFiles (fun i u r => i ++ u ++ r)
        { Username := "teacher1", Password := "wrong" } =
      .error (.unauthorized ("Invalid credentials")) :=
  (login_success_iff_credentials_match sampleFiles sampleUsers
    (fun i u r => i ++ u ++ r) { Username := "teacher1", Password := "wrong" }
    rfl).2.2 (by decide)

/-! ## C9 -/

/-- C9 (auth gate modelled from the spec; the JWT middleware enforcing the
`[Authorize]` attribute of the dashboard, schools and tests controllers is
framework code configured in Program.cs): a request whose bearer token is
missing or fails validation is rejected at the gate — the result is
`unauthenticated` and is the same for every possible controller action, so
the query logic is never reached (fail-closed); and a token at or past its
expiry fails validation regardless of its signature being valid. -/
theorem auth_gate_fail_closed (α : Type) (secret now : Nat)
    (auth : Option AccessToken) (action : Unit → α)
    (hbad : ∀ t, auth = some t → validateToken secret now t = false) :
    handleProtected secret now auth action = GateResult.unauthenticated ∧
    (∀ action2 : Unit → α,
      handleProtected secret now auth action =
        handleProtected secret now auth action2) ∧
    (∀ t : AccessToken, t.expiresAt ≤ now →
      validateToken secret now t = false) := by
  refine ⟨?_, ?_, ?_⟩
  · rcases auth with _ | t
    · rfl
    · simp [handleProtected, hbad t rfl]
  · intro action2
    rcases auth with _ | t
    · rfl
    · simp [handleProtected, hbad t rfl]
  · intro t ht
    simp [validateToken, Nat.not_lt.mpr ht]

/-- C9 witness: a token signed with the correct secret but already expired
(issued at time 0 with 60-minute expiry, presented at time 60) is rejected
before the dashboard query action is reached. -/
theorem auth_gate_fail_closed_witness :
    handleProtected 42 60 (some (generateToken 42 0 ("u1") ("teacher")))
        (fun _ =>
          getDashboardData sampleFiles [] 60 ("SCH1") ("2025-2026") ("2")) =
      GateResult.unauthenticated :=
  (auth_gate_fail_closed _ 42 60
    (some (generateToken 42 0 ("u1") ("teacher")))
    (fun _ => getDashboardData sampleFiles [] 60 ("SCH1") ("2025-2026") ("2"))
    (fun t ht => by cases ht; decide)).1

end TeacherDashboard
